import Mathlib

/-!
Verification of the equisolve conversion utilities
(`src/equisolve/utils/convert.py`) and the `rmse` metric against their
natural-language specification.

The Python code is shallowly embedded: numpy arrays become `NDArray`
(a flat rational data list together with a shape), equistore `Labels`,
`TensorBlock` and `TensorMap` become plain Lean structures, and every
fallible numpy / conversion operation returns `Except PyErr`.
-/

namespace Equisolve

/-- Python exceptions that the embedded code can raise.  `valueError`
corresponds to the spec's `ShapeMismatch`, `notImplementedError` to the
spec's `NotSupported`. -/
inductive PyErr where
  | valueError (msg : String)
  | notImplementedError (msg : String)
  | indexError
  | typeError
deriving DecidableEq, Repr

/-- A numpy ndarray: a shape together with the flat (row-major) data.
A well-formed array satisfies `data.length = shape.prod`. -/
structure NDArray where
  shape : List Nat
  data : List ℚ
deriving DecidableEq, Repr

/-- Well-formedness of an `NDArray`: the flat data has exactly as many
entries as the shape prescribes. -/
def NDArray.WF (a : NDArray) : Prop := a.data.length = a.shape.prod

instance (a : NDArray) : Decidable a.WF := by
  unfold NDArray.WF; infer_instance

/-- Python `len` of an ndarray: its first dimension; a 0-d array raises
`TypeError`. -/
def NDArray.len (a : NDArray) : Except PyErr Nat :=
  match a.shape with
  | [] => .error .typeError
  | n :: _ => .ok n

/-- `a.shape[i]` with Python semantics: `IndexError` when out of range. -/
def NDArray.shapeGet (a : NDArray) (i : Nat) : Except PyErr Nat :=
  match a.shape.get? i with
  | some d => .ok d
  | none => .error .indexError

/-- numpy `reshape(-1, tail...)`: infers the leading dimension from the
total element count; fails when the count is not divisible. -/
def npReshapeInfer (a : NDArray) (tail : List Nat) : Except PyErr NDArray :=
  if tail.prod = 0 then .error (.valueError "cannot reshape array")
  else if a.data.length % tail.prod = 0 then
    .ok ⟨a.data.length / tail.prod :: tail, a.data⟩
  else .error (.valueError "cannot reshape array")

/-- numpy `concatenate(arrs, axis=0)`: requires a nonempty list of
arrays of equal rank agreeing on every dimension but the first; the
result stacks the data and sums the leading dimensions. -/
def npConcatenate (arrs : List NDArray) : Except PyErr NDArray :=
  match arrs with
  | [] => .error (.valueError "need at least one array to concatenate")
  | a :: rest =>
    if a.shape ≠ [] ∧ ∀ b ∈ rest, b.shape.length = a.shape.length ∧ b.shape.tail = a.shape.tail then
      .ok ⟨((a :: rest).map fun b => b.shape.headI).sum :: a.shape.tail,
           ((a :: rest).map fun b => b.data).flatten⟩
    else .error (.valueError "all the input array dimensions except for the concatenation axis must match exactly")

/-- equistore `Labels`: named columns and integer rows. -/
structure Labels where
  names : List String
  values : List (List Int)
deriving DecidableEq, Repr

/-- `Labels.single()`: the single trivial key `("_",) = (0,)`. -/
def Labels.single : Labels := ⟨["_"], [[0]]⟩

/-- A gradient sub-block: like a block but with no further gradients
(the converter never nests gradients inside gradients). -/
structure GradientBlock where
  values : NDArray
  samples : Labels
  components : List Labels
  properties : Labels
deriving DecidableEq, Repr

/-- equistore `TensorBlock` as produced by the converter. -/
structure TensorBlock where
  values : NDArray
  samples : Labels
  components : List Labels
  properties : Labels
  gradients : List (String × GradientBlock)
deriving DecidableEq, Repr

/-- equistore `TensorMap`: keys plus one block per key. -/
structure TensorMap where
  keys : Labels
  blocks : List TensorBlock
deriving DecidableEq, Repr

/-- The `direction` component labels `{0,1,2}` used for gradients. -/
def directionLabels (name : String) : Labels :=
  ⟨[name], (List.range 3).map fun i => [(i : Int)]⟩

/-- The base block of `properties_to_tensormap`: values reshaped to
`(N, 1)`, samples `structure = 0..N-1`, no components, a single
property row `(0,)`. -/
def baseBlock (values : List ℚ) (property_name : String) : Except PyErr TensorBlock := do
  let v ← npReshapeInfer ⟨[values.length], values⟩ [1]
  .ok { values := v
        samples := ⟨["structure"], (List.range values.length).map fun s => [(s : Int)]⟩
        components := []
        properties := ⟨[property_name], [[0]]⟩
        gradients := [] }

/-- The `positions_gradients is not None` branch of
`properties_to_tensormap`: length check, concatenation, column check,
sample-label construction, gradient attachment. -/
def addPositions (n_structures : Nat) (positions_gradients : List NDArray)
    (block : TensorBlock) : Except PyErr TensorBlock :=
  if n_structures ≠ positions_gradients.length then
    .error (.valueError ("given " ++ toString n_structures ++ " values but "
      ++ toString positions_gradients.length ++ " positions_gradients values"))
  else
    npConcatenate positions_gradients >>= fun gradient_values =>
    gradient_values.shapeGet 1 >>= fun d1 =>
    if d1 ≠ 3 then
      .error (.valueError ("positions_gradient must have 3 columns but have " ++ toString d1))
    else
      npReshapeInfer gradient_values [3, 1] >>= fun gv =>
      let pg : GradientBlock :=
        { values := gv
          samples := ⟨["sample", "structure", "atom"],
            (List.range n_structures).flatMap fun s =>
              (List.range (positions_gradients.getD s ⟨[], []⟩).shape.headI).map
                fun a => [(s : Int), (s : Int), (a : Int)]⟩
          components := [directionLabels "direction"]
          properties := block.properties }
      .ok { block with gradients := block.gradients ++ [("positions", pg)] }

/-- The `cell_gradients is not None` branch of
`properties_to_tensormap`: length check, trailing-shape check (the
error message itself indexes `shape[1]` and `shape[2]`, raising
`IndexError` on arrays of rank below 3), sample labels, attachment. -/
def addCell (n_structures : Nat) (cell_gradients : NDArray)
    (block : TensorBlock) : Except PyErr TensorBlock :=
  cell_gradients.len >>= fun len =>
  if n_structures ≠ len then
    .error (.valueError ("given " ++ toString n_structures ++ " values but "
      ++ toString len ++ " cell_gradients values"))
  else
    if cell_gradients.shape.tail ≠ [3, 3] then
      cell_gradients.shapeGet 1 >>= fun d1 =>
      cell_gradients.shapeGet 2 >>= fun d2 =>
      .error (.valueError ("cell_gradient data must be a 3 x 3 matrix"
        ++ "but is " ++ toString d1 ++ " x " ++ toString d2))
    else
      npReshapeInfer cell_gradients [3, 3, 1] >>= fun gv =>
      let cg : GradientBlock :=
        { values := gv
          samples := ⟨["sample"], (List.range n_structures).map fun s => [(s : Int)]⟩
          components := [directionLabels "direction_1", directionLabels "direction_2"]
          properties := block.properties }
      .ok { block with gradients := block.gradients ++ [("cell", cg)] }

/-- Dispatch on the optional `positions_gradients` argument. -/
def attachPositions (n_structures : Nat) (o : Option (List NDArray))
    (block : TensorBlock) : Except PyErr TensorBlock :=
  match o with
  | none => .ok block
  | some pgs => addPositions n_structures pgs block

/-- Dispatch on the optional `cell_gradients` argument. -/
def attachCell (n_structures : Nat) (o : Option NDArray)
    (block : TensorBlock) : Except PyErr TensorBlock :=
  match o with
  | none => .ok block
  | some cg => addCell n_structures cg block

/-- `properties_to_tensormap` from `src/equisolve/utils/convert.py`:
builds a single-block tensor map from per-structure scalar values with
optional `positions` and `cell` gradients. -/
def properties_to_tensormap (values : List ℚ)
    (positions_gradients : Option (List NDArray))
    (cell_gradients : Option NDArray)
    (is_structure_property : Bool)
    (property_name : String) : Except PyErr TensorMap :=
  if is_structure_property = false then
    .error (.notImplementedError "Support for environment properties has not been implemented yet.")
  else
    baseBlock values property_name >>= fun block =>
    attachPositions values.length positions_gradients block >>= fun block =>
    attachCell values.length cell_gradients block >>= fun block =>
    .ok ⟨Labels.single, [block]⟩

end Equisolve

namespace Equisolve

/-- C1: `properties_to_tensormap(values)` (no gradients) returns a
tensor map with exactly one key and one block whose values array is
`(N, 1)` holding the input, whose samples are a single `structure`
column with rows `0..N-1`, whose properties are a single
`property_name` column with the single row `(0,)`, and whose
components list is empty. -/
theorem properties_to_tensormap_base (values : List ℚ) (property_name : String) :
    properties_to_tensormap values none none true property_name =
      .ok ⟨Labels.single,
        [{ values := ⟨[values.length, 1], values⟩
           samples := ⟨["structure"], (List.range values.length).map fun s => [(s : Int)]⟩
           components := []
           properties := ⟨[property_name], [[0]]⟩
           gradients := [] }]⟩ := by
  simp only [properties_to_tensormap, baseBlock, npReshapeInfer, Nat.mod_one,
    Nat.div_one, List.prod_cons, List.prod_nil, mul_one]
  rfl

/-- A bind in the `Except` monad returns `ok` exactly when both stages
do. -/
theorem except_bind_ok {ε α β : Type} (x : Except ε α) (f : α → Except ε β) (y : β) :
    (x >>= f) = Except.ok y ↔ ∃ a, x = Except.ok a ∧ f a = Except.ok y := by
  cases x <;> simp [Bind.bind, Except.bind]

/-- `baseBlock` always succeeds and returns the `(N, 1)` block. -/
theorem baseBlock_eq (values : List ℚ) (property_name : String) :
    baseBlock values property_name =
      .ok { values := ⟨[values.length, 1], values⟩
            samples := ⟨["structure"], (List.range values.length).map fun s => [(s : Int)]⟩
            components := []
            properties := ⟨[property_name], [[0]]⟩
            gradients := [] } := by
  simp only [baseBlock, npReshapeInfer, Nat.mod_one, Nat.div_one, List.prod_cons,
    List.prod_nil, mul_one]
  rfl

/-- Binding a successful `Except` computation just applies the
continuation. -/
theorem except_ok_bind {ε α β : Type} (a : α) (f : α → Except ε β) :
    (Except.ok a >>= f : Except ε β) = f a := rfl

/-- `npConcatenate` on a nonempty list of arrays whose shapes are
`a_i :: t` for a common trailing shape `t` returns the
`(Σ a_i) :: t` array stacking their data in order. -/
theorem npConcatenate_uniform (pgs : List NDArray) (sizes : List Nat) (t : List Nat)
    (hne : pgs ≠ [])
    (hshape : pgs.map (fun p => p.shape) = sizes.map fun a => a :: t) :
    npConcatenate pgs = .ok ⟨sizes.sum :: t, (pgs.map fun p => p.data).flatten⟩ := by
  obtain ⟨p0, rest, rfl⟩ := List.exists_cons_of_ne_nil hne
  obtain ⟨a0, sizes', rfl⟩ : ∃ a0 sizes', sizes = a0 :: sizes' := by
    cases sizes with
    | nil => simp at hshape
    | cons a u => exact ⟨a, u, rfl⟩
  simp only [List.map_cons, List.cons.injEq] at hshape
  obtain ⟨hp0, hrest⟩ := hshape
  have hmem : ∀ b ∈ rest, ∃ a ∈ sizes', b.shape = a :: t := by
    intro b hb
    have : b.shape ∈ rest.map (fun p => p.shape) := List.mem_map_of_mem _ hb
    rw [hrest] at this
    obtain ⟨a, ha, he⟩ := List.mem_map.mp this
    exact ⟨a, ha, he.symm⟩
  have hheads : (p0 :: rest).map (fun b => b.shape.headI) = a0 :: sizes' := by
    have h4 : (p0 :: rest).map (fun b => b.shape.headI) =
        ((p0 :: rest).map (fun p => p.shape)).map List.headI := by
      rw [List.map_map]; rfl
    rw [h4, List.map_cons, hp0, hrest, List.map_cons, List.map_map]
    rw [show (List.headI ∘ fun a : ℕ => a :: t) = id from funext fun a => rfl, List.map_id]
    rfl
  simp only [npConcatenate]
  rw [if_pos]
  · rw [hheads, hp0]
    rfl
  · refine ⟨by rw [hp0]; simp, ?_⟩
    intro b hb
    obtain ⟨a, -, he⟩ := hmem b hb
    rw [he, hp0]
    exact ⟨rfl, rfl⟩

/-- Summing a list after tripling each entry triples the sum. -/
theorem sum_map_mul3 (l : List Nat) : (l.map fun a => a * 3).sum = l.sum * 3 := by
  induction l with
  | nil => simp
  | cons a t ih => simp [ih, Nat.add_mul]

/-- `addPositions` on per-structure arrays of shapes `(a_i, 3)`:
succeeds and appends the `positions` gradient holding the concatenated
data reshaped to `(Σ a_i, 3, 1)`, with `(sample, structure, atom)`
sample rows grouped contiguously by structure and a single `direction`
component axis. -/
theorem addPositions_uniform (n : Nat) (pgs : List NDArray) (sizes : List Nat)
    (b : TensorBlock) (hlen : pgs.length = n) (hne : pgs ≠ [])
    (hshape : pgs.map (fun p => p.shape) = sizes.map fun a => [a, 3])
    (hwf : ∀ p ∈ pgs, p.data.length = p.shape.prod) :
    addPositions n pgs b = .ok { b with gradients := b.gradients ++ [("positions",
      { values := ⟨[sizes.sum, 3, 1], (pgs.map fun p => p.data).flatten⟩
        samples := ⟨["sample", "structure", "atom"],
          (List.range n).flatMap fun s =>
            (List.range (sizes.getD s 0)).map fun a => [(s : Int), (s : Int), (a : Int)]⟩
        components := [directionLabels "direction"]
        properties := b.properties })] } := by
  have hlensz : sizes.length = pgs.length := by
    have := congrArg List.length hshape
    simpa using this.symm
  have hflatlen : ((pgs.map fun p => p.data).flatten).length = sizes.sum * 3 := by
    rw [List.length_flatten, List.map_map]
    have h1 : pgs.map (List.length ∘ fun p => p.data) = pgs.map fun p => p.shape.prod := by
      apply List.map_congr_left
      intro p hp
      exact hwf p hp
    rw [h1]
    have h2 : pgs.map (fun p => p.shape.prod) =
        (pgs.map (fun p => p.shape)).map List.prod := by
      rw [List.map_map]; rfl
    rw [h2, hshape, List.map_map]
    have h3 : (List.prod ∘ fun a => [a, 3]) = fun a : Nat => a * 3 := by
      funext a; simp [List.prod_cons]
    rw [h3, sum_map_mul3]
  have hsample : ∀ s ∈ List.range n,
      (pgs.getD s ⟨[], []⟩).shape.headI = sizes.getD s 0 := by
    intro s hs
    rw [List.mem_range] at hs
    have hs1 : s < pgs.length := hlen ▸ hs
    have hs2 : s < sizes.length := by omega
    rw [List.getD_eq_getElem _ _ hs1, List.getD_eq_getElem _ _ hs2]
    have h5 : pgs[s].shape = [sizes[s], 3] := by
      have h6 : (pgs.map fun p => p.shape)[s]? = (sizes.map fun a => [a, 3])[s]? := by
        rw [hshape]
      rw [List.getElem?_map, List.getElem?_map, List.getElem?_eq_getElem hs1,
        List.getElem?_eq_getElem hs2] at h6
      simpa using h6
    rw [h5]
    rfl
  unfold addPositions
  rw [if_neg (by omega)]
  rw [npConcatenate_uniform pgs sizes [3] hne hshape, except_ok_bind]
  rw [show NDArray.shapeGet ⟨[sizes.sum, 3], (pgs.map fun p => p.data).flatten⟩ 1 =
    Except.ok 3 from rfl, except_ok_bind]
  rw [if_neg (by simp)]
  rw [show npReshapeInfer ⟨[sizes.sum, 3], (pgs.map fun p => p.data).flatten⟩ [3, 1] =
      Except.ok ⟨[sizes.sum, 3, 1], (pgs.map fun p => p.data).flatten⟩ by
    unfold npReshapeInfer
    rw [if_neg (by simp)]
    rw [if_pos (by simp [hflatlen])]
    simp [hflatlen]]
  rw [except_ok_bind]
  have hrows : ((List.range n).flatMap fun s =>
      (List.range (pgs.getD s ⟨[], []⟩).shape.headI).map
        fun a => ([(s : Int), (s : Int), (a : Int)] : List Int)) =
      (List.range n).flatMap fun s =>
        (List.range (sizes.getD s 0)).map fun a => [(s : Int), (s : Int), (a : Int)] := by
    rw [List.flatMap_def, List.flatMap_def]
    congr 1
    apply List.map_congr_left
    intro s hs
    rw [hsample s hs]
  rw [hrows]

/-- Whenever `addPositions` succeeds it appends exactly one gradient,
named `positions`, with one `direction` component axis and the parent
block's properties; nothing else of the block changes. -/
theorem addPositions_ok (n : Nat) (pgs : List NDArray) (b b2 : TensorBlock)
    (h : addPositions n pgs b = .ok b2) :
    ∃ pg : GradientBlock,
      b2 = { b with gradients := b.gradients ++ [("positions", pg)] } ∧
      pg.properties = b.properties ∧
      pg.components = [directionLabels "direction"] ∧
      pg.samples.names = ["sample", "structure", "atom"] := by
  unfold addPositions at h
  split at h
  · exact Except.noConfusion h
  · obtain ⟨gv, hgv, h⟩ := (except_bind_ok _ _ _).mp h
    obtain ⟨d1, hd1, h⟩ := (except_bind_ok _ _ _).mp h
    split at h
    · exact Except.noConfusion h
    · obtain ⟨gvr, hr, h⟩ := (except_bind_ok _ _ _).mp h
      cases h
      exact ⟨_, rfl, rfl, rfl, rfl⟩

/-- Whenever `addCell` succeeds it appends exactly one gradient, named
`cell`, with two `direction` component axes and the parent block's
properties; nothing else of the block changes. -/
theorem addCell_ok (n : Nat) (cg : NDArray) (b b2 : TensorBlock)
    (h : addCell n cg b = .ok b2) :
    ∃ g : GradientBlock,
      b2 = { b with gradients := b.gradients ++ [("cell", g)] } ∧
      g.properties = b.properties ∧
      g.components = [directionLabels "direction_1", directionLabels "direction_2"] ∧
      g.samples.names = ["sample"] := by
  unfold addCell at h
  obtain ⟨len, hlen, h⟩ := (except_bind_ok _ _ _).mp h
  split at h
  · exact Except.noConfusion h
  · split at h
    · obtain ⟨d1, hd1, h⟩ := (except_bind_ok _ _ _).mp h
      obtain ⟨d2, hd2, h⟩ := (except_bind_ok _ _ _).mp h
      exact Except.noConfusion h
    · obtain ⟨gvr, hr, h⟩ := (except_bind_ok _ _ _).mp h
      cases h
      exact ⟨_, rfl, rfl, rfl, rfl⟩

/-- Characterization of every successful run of
`properties_to_tensormap`: the result is a single-key, single-block
tensor map, the block carries exactly the requested gradients in the
order `positions`, `cell`, and every gradient shares the parent's
properties labels. -/
theorem properties_to_tensormap_ok (values : List ℚ)
    (positions_gradients : Option (List NDArray)) (cell_gradients : Option NDArray)
    (is_structure_property : Bool) (property_name : String) (tm : TensorMap)
    (h : properties_to_tensormap values positions_gradients cell_gradients
      is_structure_property property_name = .ok tm) :
    ∃ b : TensorBlock, tm = ⟨Labels.single, [b]⟩ ∧
      b.properties = ⟨[property_name], [[0]]⟩ ∧
      b.gradients.map Prod.fst =
        (if positions_gradients.isSome then ["positions"] else []) ++
        (if cell_gradients.isSome then ["cell"] else []) ∧
      ∀ p ∈ b.gradients, p.2.properties = b.properties := by
  unfold properties_to_tensormap at h
  split at h
  · exact Except.noConfusion h
  · obtain ⟨b0, hb0, h⟩ := (except_bind_ok _ _ _).mp h
    rw [baseBlock_eq] at hb0
    cases hb0
    obtain ⟨b1, hb1, h⟩ := (except_bind_ok _ _ _).mp h
    obtain ⟨b2, hb2, h⟩ := (except_bind_ok _ _ _).mp h
    cases h
    have step1 :
        b1.properties = ⟨[property_name], [[0]]⟩ ∧
        b1.gradients.map Prod.fst =
          (if positions_gradients.isSome then ["positions"] else []) ∧
        ∀ p ∈ b1.gradients, p.2.properties = b1.properties := by
      cases positions_gradients with
      | none =>
        simp only [attachPositions] at hb1
        cases hb1
        exact ⟨rfl, by simp, by simp⟩
      | some pgs =>
        simp only [attachPositions] at hb1
        obtain ⟨pg, hb, hp, _, _⟩ := addPositions_ok _ _ _ _ hb1
        subst hb
        refine ⟨rfl, by simp, ?_⟩
        intro p hp2
        simp only [List.nil_append, List.mem_singleton] at hp2
        subst hp2
        exact hp
    obtain ⟨hprops, hnames, hgrads⟩ := step1
    cases cell_gradients with
    | none =>
      simp only [attachCell] at hb2
      cases hb2
      exact ⟨b1, rfl, hprops, by simpa using hnames, hgrads⟩
    | some cg =>
      simp only [attachCell] at hb2
      obtain ⟨g, hb, hp, _, _⟩ := addCell_ok _ _ _ _ hb2
      subst hb
      refine ⟨_, rfl, hprops, ?_, ?_⟩
      · simp [hnames]
      · intro p hp2
        rw [List.mem_append, List.mem_singleton] at hp2
        rcases hp2 with h2 | h2
        · exact hgrads _ h2
        · subst h2
          exact hp

/-- Binding a failed `Except` computation propagates the error. -/
theorem except_error_bind {ε α β : Type} (e : ε) (f : α → Except ε β) :
    (Except.error e >>= f : Except ε β) = Except.error e := rfl

/-- C2: a valid call with positions gradients of per-structure atom
counts `a_0, ..., a_{N-1}` yields a block with a `positions` gradient
whose values are the per-structure arrays concatenated in structure
order as a `(Σ a_i, 3, 1)` array, whose sample rows are
`(sample = s, structure = s, atom = a)` for `a < a_s`, grouped
contiguously by structure, and which has the single component axis
`direction` with values `0, 1, 2`. -/
theorem properties_to_tensormap_positions (values : List ℚ) (pgs : List NDArray)
    (sizes : List Nat) (property_name : String)
    (hlen : pgs.length = values.length) (hne : pgs ≠ [])
    (hshape : pgs.map (fun p => p.shape) = sizes.map fun a => [a, 3])
    (hwf : ∀ p ∈ pgs, p.data.length = p.shape.prod) :
    properties_to_tensormap values (some pgs) none true property_name =
      .ok ⟨Labels.single,
        [{ values := ⟨[values.length, 1], values⟩
           samples := ⟨["structure"], (List.range values.length).map fun s => [(s : Int)]⟩
           components := []
           properties := ⟨[property_name], [[0]]⟩
           gradients := [("positions",
             { values := ⟨[sizes.sum, 3, 1], (pgs.map fun p => p.data).flatten⟩
               samples := ⟨["sample", "structure", "atom"],
                 (List.range values.length).flatMap fun s =>
                   (List.range (sizes.getD s 0)).map
                     fun a => [(s : Int), (s : Int), (a : Int)]⟩
               components := [⟨["direction"], [[0], [1], [2]]⟩]
               properties := ⟨[property_name], [[0]]⟩ })] }]⟩ := by
  unfold properties_to_tensormap
  rw [if_neg (by simp), baseBlock_eq, except_ok_bind]
  simp only [attachPositions]
  rw [addPositions_uniform values.length pgs sizes _ hlen hne hshape hwf, except_ok_bind]
  simp only [attachCell]
  rw [except_ok_bind]
  rfl

/-- Concrete witness for C2: two structures with 2 and 1 atoms. -/
theorem properties_to_tensormap_positions_witness :
    properties_to_tensormap [1, 2]
      (some [⟨[2, 3], [1, 2, 3, 4, 5, 6]⟩, ⟨[1, 3], [7, 8, 9]⟩]) none true "energy" =
      .ok ⟨Labels.single,
        [{ values := ⟨[2, 1], [1, 2]⟩
           samples := ⟨["structure"], [[0], [1]]⟩
           components := []
           properties := ⟨["energy"], [[0]]⟩
           gradients := [("positions",
             { values := ⟨[3, 3, 1], [1, 2, 3, 4, 5, 6, 7, 8, 9]⟩
               samples := ⟨["sample", "structure", "atom"],
                 [[0, 0, 0], [0, 0, 1], [1, 1, 0]]⟩
               components := [⟨["direction"], [[0], [1], [2]]⟩]
               properties := ⟨["energy"], [[0]]⟩ })] }]⟩ := by
  have h := properties_to_tensormap_positions [1, 2]
    [⟨[2, 3], [1, 2, 3, 4, 5, 6]⟩, ⟨[1, 3], [7, 8, 9]⟩] [2, 1] "energy"
    (by decide) (by decide) (by decide) (by decide)
  exact h.trans (by rfl)

/-- C3: with `positions_gradients` supplied, a length mismatch with
`values` raises the `ValueError` (`ShapeMismatch`), and per-structure
`(a_i, k)` arrays whose column count `k` is not 3 raise the
`ValueError` after concatenation; in both cases the call returns an
error and no tensor map. -/
theorem properties_to_tensormap_positions_errors (values : List ℚ)
    (pgs : List NDArray) (cell_gradients : Option NDArray) (property_name : String) :
    (pgs.length ≠ values.length →
      properties_to_tensormap values (some pgs) cell_gradients true property_name =
        .error (.valueError ("given " ++ toString values.length ++ " values but "
          ++ toString pgs.length ++ " positions_gradients values"))) ∧
    (∀ (sizes : List Nat) (k : Nat),
      pgs.length = values.length → pgs ≠ [] →
      pgs.map (fun p => p.shape) = sizes.map (fun a => [a, k]) → k ≠ 3 →
      properties_to_tensormap values (some pgs) cell_gradients true property_name =
        .error (.valueError ("positions_gradient must have 3 columns but have "
          ++ toString k))) := by
  constructor
  · intro h
    unfold properties_to_tensormap
    rw [if_neg (by simp), baseBlock_eq, except_ok_bind]
    simp only [attachPositions]
    unfold addPositions
    rw [if_pos (by omega)]
    rw [except_error_bind]
  · intro sizes k hlen hne hshape hk
    unfold properties_to_tensormap
    rw [if_neg (by simp), baseBlock_eq, except_ok_bind]
    simp only [attachPositions]
    unfold addPositions
    rw [if_neg (by omega)]
    rw [npConcatenate_uniform pgs sizes [k] hne hshape, except_ok_bind]
    rw [show NDArray.shapeGet ⟨sizes.sum :: [k], (pgs.map fun p => p.data).flatten⟩ 1 =
      Except.ok k from rfl, except_ok_bind]
    rw [if_pos hk]
    rw [except_error_bind]

/-- Concrete witness for C3: one value with zero per-structure arrays
(length mismatch), and one `(1, 4)` array (wrong column count). -/
theorem properties_to_tensormap_positions_errors_witness :
    (properties_to_tensormap [1] (some []) none true "property" =
      .error (.valueError ("given " ++ toString (1 : Nat) ++ " values but "
        ++ toString (0 : Nat) ++ " positions_gradients values"))) ∧
    (properties_to_tensormap [1] (some [⟨[1, 4], [1, 2, 3, 4]⟩]) none true "property" =
      .error (.valueError ("positions_gradient must have 3 columns but have "
        ++ toString (4 : Nat)))) :=
  ⟨(properties_to_tensormap_positions_errors [1] [] none "property").1 (by decide),
   (properties_to_tensormap_positions_errors [1] [⟨[1, 4], [1, 2, 3, 4]⟩] none "property").2
     [1] 4 (by decide) (by decide) (by decide) (by decide)⟩

/-- C4: for a cell-gradient array of shape `(N, d1, d2)` with `N`
matching the number of values, the call fails with the `ValueError`
(`ShapeMismatch`) whenever `(d1, d2) ≠ (3, 3)` — in particular for
shape `(N, 3, 4)` — and for `(d1, d2) = (3, 3)` it succeeds and
attaches a `cell` gradient with two size-3 component axes
`direction_1`, `direction_2` and sample rows `(s,)` for
`s = 0..N-1`. -/
theorem properties_to_tensormap_cell (values : List ℚ) (cg : NDArray)
    (property_name : String) (d1 d2 : Nat)
    (hshape : cg.shape = [values.length, d1, d2]) :
    (¬(d1 = 3 ∧ d2 = 3) →
      properties_to_tensormap values none (some cg) true property_name =
        .error (.valueError ("cell_gradient data must be a 3 x 3 matrix"
          ++ "but is " ++ toString d1 ++ " x " ++ toString d2))) ∧
    (d1 = 3 → d2 = 3 → cg.data.length = cg.shape.prod →
      properties_to_tensormap values none (some cg) true property_name =
        .ok ⟨Labels.single,
          [{ values := ⟨[values.length, 1], values⟩
             samples := ⟨["structure"], (List.range values.length).map fun s => [(s : Int)]⟩
             components := []
             properties := ⟨[property_name], [[0]]⟩
             gradients := [("cell",
               { values := ⟨[values.length, 3, 3, 1], cg.data⟩
                 samples := ⟨["sample"], (List.range values.length).map fun s => [(s : Int)]⟩
                 components := [⟨["direction_1"], [[0], [1], [2]]⟩,
                                ⟨["direction_2"], [[0], [1], [2]]⟩]
                 properties := ⟨[property_name], [[0]]⟩ })] }]⟩) := by
  have hlen : NDArray.len cg = Except.ok values.length := by
    unfold NDArray.len
    rw [hshape]
  constructor
  · intro hne
    unfold properties_to_tensormap
    rw [if_neg (by simp), baseBlock_eq, except_ok_bind]
    simp only [attachPositions]
    rw [except_ok_bind]
    simp only [attachCell]
    unfold addCell
    rw [hlen, except_ok_bind]
    rw [if_neg (by simp)]
    rw [if_pos (by rw [hshape]; simpa using hne)]
    rw [show NDArray.shapeGet cg 1 = Except.ok d1 by
      unfold NDArray.shapeGet; rw [hshape]; rfl]
    rw [except_ok_bind]
    rw [show NDArray.shapeGet cg 2 = Except.ok d2 by
      unfold NDArray.shapeGet; rw [hshape]; rfl]
    rw [except_ok_bind, except_error_bind]
  · rintro rfl rfl hwf
    have hl : cg.data.length = values.length * 9 := by
      rw [hwf, hshape]
      simp only [List.prod_cons, List.prod_nil]
      ring
    unfold properties_to_tensormap
    rw [if_neg (by simp), baseBlock_eq, except_ok_bind]
    simp only [attachPositions]
    rw [except_ok_bind]
    simp only [attachCell]
    unfold addCell
    rw [hlen, except_ok_bind]
    rw [if_neg (by simp)]
    rw [if_neg (by rw [hshape]; simp)]
    rw [show npReshapeInfer cg [3, 3, 1] = .ok ⟨[values.length, 3, 3, 1], cg.data⟩ by
      unfold npReshapeInfer
      rw [if_neg (by decide)]
      rw [if_pos (by rw [hl]; simp only [List.prod_cons, List.prod_nil]; omega)]
      have hd : cg.data.length / ([3, 3, 1] : List ℕ).prod = values.length := by
        rw [hl]
        simp only [List.prod_cons, List.prod_nil]
        omega
      rw [hd]]
    rw [except_ok_bind]
    rfl

/-- Concrete witness for C4: shape `(2, 3, 4)` fails with the
`ValueError`, shape `(1, 3, 3)` succeeds with the full `cell`
gradient. -/
theorem properties_to_tensormap_cell_witness :
    (properties_to_tensormap [0, 0] none
      (some ⟨[2, 3, 4], List.replicate 24 0⟩) true "property" =
      .error (.valueError ("cell_gradient data must be a 3 x 3 matrix"
        ++ "but is " ++ toString (3 : Nat) ++ " x " ++ toString (4 : Nat)))) ∧
    (properties_to_tensormap [2] none
      (some ⟨[1, 3, 3], [1, 2, 3, 4, 5, 6, 7, 8, 9]⟩) true "property" =
      .ok ⟨Labels.single,
        [{ values := ⟨[1, 1], [2]⟩
           samples := ⟨["structure"], [[0]]⟩
           components := []
           properties := ⟨["property"], [[0]]⟩
           gradients := [("cell",
             { values := ⟨[1, 3, 3, 1], [1, 2, 3, 4, 5, 6, 7, 8, 9]⟩
               samples := ⟨["sample"], [[0]]⟩
               components := [⟨["direction_1"], [[0], [1], [2]]⟩,
                              ⟨["direction_2"], [[0], [1], [2]]⟩]
               properties := ⟨["property"], [[0]]⟩ })] }]⟩) :=
  ⟨(properties_to_tensormap_cell [0, 0] ⟨[2, 3, 4], List.replicate 24 0⟩
      "property" 3 4 (by decide)).1 (by decide),
   ((properties_to_tensormap_cell [2] ⟨[1, 3, 3], [1, 2, 3, 4, 5, 6, 7, 8, 9]⟩
      "property" 3 3 (by decide)).2 rfl rfl (by decide)).trans (by rfl)⟩

/-- C5: in every successful call of `properties_to_tensormap`, each
gradient sub-block's properties labels equal the parent block's
properties labels by value. -/
theorem gradient_properties_eq_parent (values : List ℚ)
    (positions_gradients : Option (List NDArray)) (cell_gradients : Option NDArray)
    (is_structure_property : Bool) (property_name : String) (tm : TensorMap)
    (h : properties_to_tensormap values positions_gradients cell_gradients
      is_structure_property property_name = .ok tm) :
    ∀ b ∈ tm.blocks, ∀ p ∈ b.gradients, p.2.properties = b.properties := by
  obtain ⟨b, htm, -, -, hg⟩ :=
    properties_to_tensormap_ok _ _ _ _ _ _ h
  subst htm
  intro b2 hb2
  rw [List.mem_singleton] at hb2
  subst hb2
  exact hg

/-- Concrete witness for C5: a call with one structure, one atom, a
positions gradient and a cell gradient; the cell gradient sub-block's
properties equal the parent block's properties. -/
theorem gradient_properties_eq_parent_witness :
    (("cell",
      ({ values := ⟨[1, 3, 3, 1], [1, 2, 3, 4, 5, 6, 7, 8, 9]⟩
         samples := ⟨["sample"], [[0]]⟩
         components := [⟨["direction_1"], [[0], [1], [2]]⟩,
                        ⟨["direction_2"], [[0], [1], [2]]⟩]
         properties := ⟨["energy"], [[0]]⟩ } : GradientBlock)) : String × GradientBlock).2.properties =
    ({ values := ⟨[1, 1], [5]⟩
       samples := ⟨["structure"], [[0]]⟩
       components := []
       properties := ⟨["energy"], [[0]]⟩
       gradients := [("positions",
          { values := ⟨[1, 3, 1], [1, 2, 3]⟩
            samples := ⟨["sample", "structure", "atom"], [[0, 0, 0]]⟩
            components := [⟨["direction"], [[0], [1], [2]]⟩]
            properties := ⟨["energy"], [[0]]⟩ }),
         ("cell",
          { values := ⟨[1, 3, 3, 1], [1, 2, 3, 4, 5, 6, 7, 8, 9]⟩
            samples := ⟨["sample"], [[0]]⟩
            components := [⟨["direction_1"], [[0], [1], [2]]⟩,
                           ⟨["direction_2"], [[0], [1], [2]]⟩]
            properties := ⟨["energy"], [[0]]⟩ })] } : TensorBlock).properties :=
  gradient_properties_eq_parent [5] (some [⟨[1, 3], [1, 2, 3]⟩])
    (some ⟨[1, 3, 3], [1, 2, 3, 4, 5, 6, 7, 8, 9]⟩) true "energy"
    ⟨⟨["_"], [[0]]⟩,
      [{ values := ⟨[1, 1], [5]⟩
         samples := ⟨["structure"], [[0]]⟩
         components := []
         properties := ⟨["energy"], [[0]]⟩
         gradients := [("positions",
            { values := ⟨[1, 3, 1], [1, 2, 3]⟩
              samples := ⟨["sample", "structure", "atom"], [[0, 0, 0]]⟩
              components := [⟨["direction"], [[0], [1], [2]]⟩]
              properties := ⟨["energy"], [[0]]⟩ }),
           ("cell",
            { values := ⟨[1, 3, 3, 1], [1, 2, 3, 4, 5, 6, 7, 8, 9]⟩
              samples := ⟨["sample"], [[0]]⟩
              components := [⟨["direction_1"], [[0], [1], [2]]⟩,
                             ⟨["direction_2"], [[0], [1], [2]]⟩]
              properties := ⟨["energy"], [[0]]⟩ })] }]⟩
    (by rfl) _ (by decide) _ (by decide)

/-- C6: `properties_to_tensormap` is atomic — whenever it returns at
all (`.ok`), the result is the complete tensor map: the single trivial
key, exactly one block, and that block carrying exactly the gradients
that the call requested (`positions` and/or `cell`); every failure
returns `.error` with no output. -/
theorem properties_to_tensormap_atomic (values : List ℚ)
    (positions_gradients : Option (List NDArray)) (cell_gradients : Option NDArray)
    (is_structure_property : Bool) (property_name : String) (tm : TensorMap)
    (h : properties_to_tensormap values positions_gradients cell_gradients
      is_structure_property property_name = .ok tm) :
    tm.keys = Labels.single ∧ ∃ b, tm.blocks = [b] ∧
      b.gradients.map Prod.fst =
        (if positions_gradients.isSome then ["positions"] else []) ++
        (if cell_gradients.isSome then ["cell"] else []) := by
  obtain ⟨b, htm, -, hn, -⟩ :=
    properties_to_tensormap_ok _ _ _ _ _ _ h
  subst htm
  exact ⟨rfl, b, rfl, hn⟩

/-- Concrete witness for C6: a call with both gradients requested
yields the single-key single-block map carrying exactly
`positions` and `cell`. -/
theorem properties_to_tensormap_atomic_witness :
    (TensorMap.mk ⟨["_"], [[0]]⟩
      [{ values := ⟨[1, 1], [7]⟩
         samples := ⟨["structure"], [[0]]⟩
         components := []
         properties := ⟨["property"], [[0]]⟩
         gradients := [("positions",
            { values := ⟨[1, 3, 1], [4, 5, 6]⟩
              samples := ⟨["sample", "structure", "atom"], [[0, 0, 0]]⟩
              components := [⟨["direction"], [[0], [1], [2]]⟩]
              properties := ⟨["property"], [[0]]⟩ }),
           ("cell",
            { values := ⟨[1, 3, 3, 1], [1, 0, 0, 0, 1, 0, 0, 0, 1]⟩
              samples := ⟨["sample"], [[0]]⟩
              components := [⟨["direction_1"], [[0], [1], [2]]⟩,
                             ⟨["direction_2"], [[0], [1], [2]]⟩]
              properties := ⟨["property"], [[0]]⟩ })] }]).keys = Labels.single ∧
    ∃ b, (TensorMap.mk ⟨["_"], [[0]]⟩
      [{ values := ⟨[1, 1], [7]⟩
         samples := ⟨["structure"], [[0]]⟩
         components := []
         properties := ⟨["property"], [[0]]⟩
         gradients := [("positions",
            { values := ⟨[1, 3, 1], [4, 5, 6]⟩
              samples := ⟨["sample", "structure", "atom"], [[0, 0, 0]]⟩
              components := [⟨["direction"], [[0], [1], [2]]⟩]
              properties := ⟨["property"], [[0]]⟩ }),
           ("cell",
            { values := ⟨[1, 3, 3, 1], [1, 0, 0, 0, 1, 0, 0, 0, 1]⟩
              samples := ⟨["sample"], [[0]]⟩
              components := [⟨["direction_1"], [[0], [1], [2]]⟩,
                             ⟨["direction_2"], [[0], [1], [2]]⟩]
              properties := ⟨["property"], [[0]]⟩ })] }]).blocks = [b] ∧
      b.gradients.map Prod.fst =
        (if (some [(⟨[1, 3], [4, 5, 6]⟩ : NDArray)]).isSome then ["positions"] else []) ++
        (if (some (⟨[1, 3, 3], [1, 0, 0, 0, 1, 0, 0, 0, 1]⟩ : NDArray)).isSome then ["cell"] else []) :=
  properties_to_tensormap_atomic [7] (some [⟨[1, 3], [4, 5, 6]⟩])
    (some ⟨[1, 3, 3], [1, 0, 0, 0, 1, 0, 0, 0, 1]⟩) true "property" _ (by rfl)

/-- Errors of the `rmse` metric, per the spec's taxonomy. -/
inductive MetricErr where
  | keyMismatch
  | shapeMismatch
  | unknownParameter
deriving DecidableEq, Repr

/-- Modelled from the spec: `equisolve.utils.rmse` is not under `src/`
(only its test is), so `select` follows spec §4.3: `"values"` resolves
to the block's values array, any other string to the corresponding
gradient block's values array, failing with `UnknownParameter` when the
gradient name is absent. -/
def selectArray (b : TensorBlock) (parameter_key : String) : Except MetricErr NDArray :=
  if parameter_key = "values" then .ok b.values
  else
    match b.gradients.lookup parameter_key with
    | some g => .ok g.values
    | none => .error .unknownParameter

/-- Arithmetic mean of a list of rationals (0 on the empty list). -/
def listMean (l : List ℚ) : ℚ := l.sum / l.length

/-- Modelled from the spec: per-key root-mean-square error
`sqrt(mean((flatten(x) - flatten(y))^2))`, failing with
`ShapeMismatch` when the selected arrays differ in total element
count. -/
noncomputable def blockRMSE (x y : NDArray) : Except MetricErr ℝ :=
  if x.data.length ≠ y.data.length then .error .shapeMismatch
  else .ok (Real.sqrt ((listMean ((x.data.zip y.data).map fun p => (p.1 - p.2) ^ 2) : ℚ) : ℝ))

/-- Modelled from the spec: `equisolve.utils.rmse` is not under `src/`
(only its test is), so this follows spec §4.3: fail with `KeyMismatch`
when the two maps' keys differ, otherwise return one RMSE scalar per
key, in `y_true`'s key order. -/
noncomputable def rmse (y_true y_pred : TensorMap) (parameter_key : String) :
    Except MetricErr (List ℝ) :=
  if y_true.keys = y_pred.keys then
    (y_true.blocks.zip y_pred.blocks).mapM fun bp =>
      selectArray bp.1 parameter_key >>= fun xt =>
      selectArray bp.2 parameter_key >>= fun xp =>
      blockRMSE xt xp
  else .error .keyMismatch

/-- Squared differences of a list zipped with itself are all zero. -/
theorem zip_self_sq_diff (l : List ℚ) :
    (l.zip l).map (fun p => (p.1 - p.2) ^ 2) = l.map fun _ => (0 : ℚ) := by
  induction l with
  | nil => rfl
  | cons a t ih => simp [List.zip_cons_cons, ih]

/-- The RMSE of an array against itself is zero. -/
theorem blockRMSE_self (v : NDArray) : blockRMSE v v = .ok 0 := by
  unfold blockRMSE
  rw [if_neg (by simp)]
  rw [zip_self_sq_diff]
  have h1 : listMean (v.data.map fun _ => (0 : ℚ)) = 0 := by
    unfold listMean
    have : (v.data.map fun _ => (0 : ℚ)).sum = 0 := by
      induction v.data with
      | nil => rfl
      | cons a t ih => simp [ih]
    rw [this]
    simp
  rw [h1]
  simp [Real.sqrt_zero]

/-- C8: reflexivity of the metric — for every tensor map `X` and every
`parameter_key` present in all of `X`'s blocks (`values` or an attached
gradient name), `rmse(X, X, parameter_key)` is a list of scalars, one
per key in `X`'s key order, all equal to `0.0`. -/
theorem rmse_self_zero (X : TensorMap) (parameter_key : String)
    (hsel : ∀ b ∈ X.blocks, (selectArray b parameter_key).isOk = true) :
    rmse X X parameter_key = .ok (X.blocks.map fun _ => (0 : ℝ)) := by
  unfold rmse
  rw [if_pos rfl]
  suffices h : ∀ bs : List TensorBlock,
      (∀ b ∈ bs, (selectArray b parameter_key).isOk = true) →
      ((bs.zip bs).mapM fun bp =>
        selectArray bp.1 parameter_key >>= fun xt =>
        selectArray bp.2 parameter_key >>= fun xp =>
        blockRMSE xt xp) = .ok (bs.map fun _ => (0 : ℝ)) from
    h X.blocks hsel
  intro bs
  induction bs with
  | nil => intro _; rfl
  | cons b t ih =>
    intro h
    have hb := h b (List.mem_cons_self b t)
    obtain ⟨v, hv⟩ : ∃ v, selectArray b parameter_key = .ok v := by
      cases hx : selectArray b parameter_key with
      | ok v => exact ⟨v, rfl⟩
      | error e =>
        rw [hx] at hb
        simp [Except.isOk, Except.toBool] at hb
    rw [List.zip_cons_cons, List.mapM_cons]
    rw [show (selectArray b parameter_key >>= fun xt =>
        selectArray b parameter_key >>= fun xp => blockRMSE xt xp) = Except.ok (0 : ℝ) by
      rw [hv, except_ok_bind, except_ok_bind, blockRMSE_self]]
    rw [except_ok_bind]
    rw [ih fun b2 hb2 => h b2 (List.mem_cons_of_mem _ hb2)]
    rw [except_ok_bind]
    rfl

/-- Concrete witness for C8: a one-key map with a `positions` gradient,
compared against itself for `parameter_key = "positions"`. -/
theorem rmse_self_zero_witness :
    rmse
      ⟨⟨["_"], [[0]]⟩,
        [{ values := ⟨[2, 1], [1, 2]⟩
           samples := ⟨["structure"], [[0], [1]]⟩
           components := []
           properties := ⟨["property"], [[0]]⟩
           gradients := [("positions",
             { values := ⟨[2, 3, 1], [1, 2, 3, 4, 5, 6]⟩
               samples := ⟨["sample", "structure", "atom"], [[0, 0, 0], [1, 1, 0]]⟩
               components := [⟨["direction"], [[0], [1], [2]]⟩]
               properties := ⟨["property"], [[0]]⟩ })] }]⟩
      ⟨⟨["_"], [[0]]⟩,
        [{ values := ⟨[2, 1], [1, 2]⟩
           samples := ⟨["structure"], [[0], [1]]⟩
           components := []
           properties := ⟨["property"], [[0]]⟩
           gradients := [("positions",
             { values := ⟨[2, 3, 1], [1, 2, 3, 4, 5, 6]⟩
               samples := ⟨["sample", "structure", "atom"], [[0, 0, 0], [1, 1, 0]]⟩
               components := [⟨["direction"], [[0], [1], [2]]⟩]
               properties := ⟨["property"], [[0]]⟩ })] }]⟩
      "positions" = .ok [(0 : ℝ)] :=
  rmse_self_zero
    ⟨⟨["_"], [[0]]⟩,
      [{ values := ⟨[2, 1], [1, 2]⟩
         samples := ⟨["structure"], [[0], [1]]⟩
         components := []
         properties := ⟨["property"], [[0]]⟩
         gradients := [("positions",
           { values := ⟨[2, 3, 1], [1, 2, 3, 4, 5, 6]⟩
             samples := ⟨["sample", "structure", "atom"], [[0, 0, 0], [1, 1, 0]]⟩
             components := [⟨["direction"], [[0], [1], [2]]⟩]
             properties := ⟨["property"], [[0]]⟩ })] }]⟩
    "positions" (by decide)

/-- C9: calling `properties_to_tensormap` with
`is_structure_property = false` always fails with the
`NotImplementedError` (`NotSupported`), for every input. -/
theorem properties_to_tensormap_not_structure (values : List ℚ)
    (positions_gradients : Option (List NDArray)) (cell_gradients : Option NDArray)
    (property_name : String) :
    properties_to_tensormap values positions_gradients cell_gradients false property_name =
      .error (.notImplementedError "Support for environment properties has not been implemented yet.") := by
  rfl

/-- C10: with `values = []` and `positions_gradients = []` both length
checks pass, but `np.concatenate` of an empty sequence fails, so the
call raises `ValueError` instead of returning a tensor map with an
empty `positions` gradient. -/
theorem properties_to_tensormap_empty_positions (property_name : String) :
    properties_to_tensormap [] (some []) none true property_name =
      .error (.valueError "need at least one array to concatenate") := by
  rfl

end Equisolve
